import Mathlib

/-!
Verification of the fitness-tracker user/profile slice.

The embedding follows the Python source:
- dates are proleptic-Gregorian ordinals (as in the Python date type), so a
  date is an integer day count and subtraction of dates yields a day count;
- `FitnessProfile.calculate_age` is `(today - date_of_birth).days // 365`
  with Python floor division, i.e. `Int.fdiv`;
- `FitnessProfile.calculate_bmi` is `round(weight / (height / 100) ** 2, 2)`
  over exact rationals, with the Python round-half-to-even rounding;
- `FitnessProfile.save` overwrites `age` and `bmi` and hands the record to
  the persistence layer (modelled as the record that gets persisted);
- the validators of `validators.py` and `abstract/models.py` become
  `Except`-valued functions;
- the serializer create path becomes a function from a database value to
  a database value plus result.
-/

/-- Field metadata of users/models.py aside, a profile record holds
these fields.  `age` and `bmi` are nullable (`null=True`), hence `Option`. -/
structure FitnessProfile where
  user : String
  gender : String
  date_of_birth : Int
  age : Option Int
  contact_number : String
  height : Int
  weight : Int
  bmi : Option ℚ
  joining_date : Option Int
  goal : String
  deriving Repr, DecidableEq

/-- Proleptic Gregorian leap-year test, as in the Python calendar. -/
def isLeapYear (y : Nat) : Bool :=
  y % 4 == 0 && (y % 100 != 0 || y % 400 == 0)

/-- Days in month `m` of year `y` (Python `_days_in_month`). -/
def daysInMonth (y m : Nat) : Nat :=
  if m = 2 then (if isLeapYear y then 29 else 28)
  else if m = 4 ∨ m = 6 ∨ m = 9 ∨ m = 11 then 30
  else 31

/-- Days in year `y` before the first of month `m` (Python `_days_before_month`). -/
def daysBeforeMonth (y m : Nat) : Nat :=
  (List.range (m - 1)).foldl (fun acc i => acc + daysInMonth y (i + 1)) 0

/-- Days before January 1 of year `y` (Python `_days_before_year`). -/
def daysBeforeYear (y : Nat) : Nat :=
  365 * (y - 1) + (y - 1) / 4 + (y - 1) / 400 - (y - 1) / 100

/-- The ordinal of the date `y-m-d`, as Python `date.toordinal`. -/
def toOrdinal (y m d : Nat) : Int :=
  ((daysBeforeYear y + daysBeforeMonth y m + d : Nat) : Int)

/-- Method `FitnessProfile.calculate_age`: `today - self.date_of_birth` is a day
count and the result is its Python floor division by 365. -/
def FitnessProfile.calculate_age (today : Int) (p : FitnessProfile) : Int :=
  (today - p.date_of_birth).fdiv 365

/-- Python `round` on an exact rational: nearest integer, ties to even. -/
def pyRound (q : ℚ) : ℤ :=
  if q - ⌊q⌋ < 1 / 2 then ⌊q⌋
  else if 1 / 2 < q - ⌊q⌋ then ⌊q⌋ + 1
  else if ⌊q⌋ % 2 = 0 then ⌊q⌋ else ⌊q⌋ + 1

/-- Python `round(x, 2)` on an exact rational. -/
def pyRound2 (q : ℚ) : ℚ :=
  ((pyRound (q * 100) : ℤ) : ℚ) / 100

/-- Method `FitnessProfile.calculate_bmi`: height in meters is `height / 100`, bmi
is `weight / height_in_meters ** 2`, rounded to two decimal places. -/
def FitnessProfile.calculate_bmi (p : FitnessProfile) : ℚ :=
  let height_in_meters : ℚ := (p.height : ℚ) / 100
  let bmi : ℚ := (p.weight : ℚ) / height_in_meters ^ 2
  pyRound2 bmi

/-- Method `FitnessProfile.save`: overwrite `age` and `bmi` from the other fields,
then delegate to the framework save; the returned record is what is
persisted. -/
def FitnessProfile.save (today : Int) (p : FitnessProfile) : FitnessProfile :=
  { p with age := some (p.calculate_age today), bmi := some p.calculate_bmi }

/-- Validator `validate_date_of_birth` of validators.py: raise a `ValidationError` keyed to
`date_of_birth` when `value >= timezone.now().date()`. -/
def validate_date_of_birth (today : Int) (value : Int) :
    Except (String × String) Unit :=
  if today ≤ value then
    .error ("date_of_birth", "Date of birth must be in the past.")
  else
    .ok ()

/-- Django `MinValueValidator(limit, message)`: raise when `value < limit`. -/
def min_value_validator (limit : Int) (message : String) (value : Int) :
    Except String Unit :=
  if value < limit then .error message else .ok ()

/-- Full anchored match of a list of character classes against a character
list: the semantics of an anchored regex that is a fixed-length sequence of
character classes. -/
def matchClassList : List (Char → Bool) → List Char → Bool
  | [], [] => true
  | [], _ :: _ => false
  | _ :: _, [] => false
  | p :: ps, c :: cs => p c && matchClassList ps cs

/-- The pattern of `MobileNumberField.default_validators`: ten decimal
digits, anchored on both sides. -/
def mobileNumberPattern : List (Char → Bool) :=
  List.replicate 10 Char.isDigit

/-- The `RegexValidator` of `MobileNumberField`: raise with message
`Enter a valid 10-digit mobile number.` unless the pattern matches. -/
def mobile_number_validator (value : String) : Except String Unit :=
  if matchClassList mobileNumberPattern value.data then .ok ()
  else .error "Enter a valid 10-digit mobile number."

/-- An identity record: the generated opaque handle and the display name. -/
structure UserRec where
  username : String
  name : String
  deriving Repr, DecidableEq

/-- The nested profile payload of the account-creation request. -/
structure ProfilePayload where
  gender : String
  date_of_birth : Int
  contact_number : String
  height : Int
  weight : Int
  joining_date : Option Int
  goal : String
  deriving Repr, DecidableEq

/-- The persistent state: identity records and profile records. -/
structure DB where
  users : List UserRec
  profiles : List FitnessProfile
  deriving Repr, DecidableEq

/-- The `username=random_username` existence query used by the generation loop. -/
def usernameExists (users : List UserRec) (u : String) : Bool :=
  users.any (fun r => r.username == u)

/-- Method `CreateUserSerializer.generate_random_username`: draw candidates from
the random stream `draw` until one does not already exist among identity
records; `h` supplies the termination of the unbounded `while True` loop. -/
def generate_random_username (users : List UserRec) (draw : Nat → String)
    (h : ∃ n, usernameExists users (draw n) = false) : String :=
  draw (Nat.find h)

/-- Modelled from the spec: the serializer field-validation dispatch (the
framework `is_valid` pass that runs every field validator of section 4.1
and reports a per-field error map) is framework code, not in the sources;
only the individual validators it runs are.  Each field validator from the
sources is applied to its payload field and the failures are collected. -/
def validateProfile (today : Int) (fp : ProfilePayload) :
    List (String × String) :=
  (match validate_date_of_birth today fp.date_of_birth with
    | .error e => [e]
    | .ok _ => []) ++
  (match min_value_validator 1 "Height must be a positive value." fp.height with
    | .error m => [("height", m)]
    | .ok _ => []) ++
  (match min_value_validator 1 "Weight must be a positive value." fp.weight with
    | .error m => [("weight", m)]
    | .ok _ => []) ++
  (match mobile_number_validator fp.contact_number with
    | .error m => [("contact_number", m)]
    | .ok _ => [])

/-- The call `FitnessProfile.objects.create(user=user, **fitness_profile)` builds
this record (derived fields not yet populated) and then saves it. -/
def mkProfile (username : String) (fp : ProfilePayload) : FitnessProfile :=
  { user := username
    gender := fp.gender
    date_of_birth := fp.date_of_birth
    age := none
    contact_number := fp.contact_number
    height := fp.height
    weight := fp.weight
    bmi := none
    joining_date := fp.joining_date
    goal := fp.goal }

/-- Method `CreateUserSerializer.create`, with the framework steps made explicit.
Modelled from the spec where the framework acts: validation runs first and
any violation aborts with the per-field error map before any write
(section 4.2 step 1); on success the identity record is created with the
generated handle, then the profile record is created linked to it, which
triggers `FitnessProfile.save` and hence the derived-field computation. -/
def create (today : Int) (draw : Nat → String) (name : String)
    (fp : ProfilePayload) (db : DB)
    (h : ∃ n, usernameExists db.users (draw n) = false) :
    DB × Except (List (String × String)) UserRec :=
  let errs := validateProfile today fp
  if errs = [] then
    let random_username := generate_random_username db.users draw h
    let user : UserRec := { username := random_username, name := name }
    let profile := (mkProfile random_username fp).save today
    ({ users := db.users ++ [user], profiles := db.profiles ++ [profile] },
      .ok user)
  else
    (db, .error errs)

/-- A concrete profile used by the witnesses: born 2000-01-01, 180 cm,
75 kg, valid contact number. -/
def sampleProfile : FitnessProfile :=
  { user := "a0b1c2d3e4f5g6h7"
    gender := "M"
    date_of_birth := toOrdinal 2000 1 1
    age := none
    contact_number := "9876543210"
    height := 180
    weight := 75
    bmi := none
    joining_date := none
    goal := "GF" }

/-- A concrete valid creation payload used by the witnesses. -/
def samplePayload : ProfilePayload :=
  { gender := "M"
    date_of_birth := toOrdinal 2000 1 1
    contact_number := "9876543210"
    height := 180
    weight := 75
    joining_date := none
    goal := "GF" }

/-- A concrete invalid creation payload: date of birth in the future of
2024-01-01, zero height, malformed contact number. -/
def badPayload : ProfilePayload :=
  { gender := "M"
    date_of_birth := toOrdinal 2025 1 1
    contact_number := "12345"
    height := 0
    weight := 75
    joining_date := none
    goal := "GF" }

/-- The empty persistent state. -/
def emptyDB : DB := { users := [], profiles := [] }

/-- A deterministic stand-in for the random 16-character draw. -/
def constDraw : Nat → String := fun _ => "a0b1c2d3e4f5g6h7"

/-- On the empty state every draw is fresh. -/
theorem constDraw_fresh_emptyDB :
    ∃ n, usernameExists emptyDB.users (constDraw n) = false :=
  ⟨0, rfl⟩

/-- The distance from a rational to its Python rounding is at most 1/2. -/
theorem abs_pyRound_sub_le (q : ℚ) : |((pyRound q : ℤ) : ℚ) - q| ≤ 1 / 2 := by
  have h0 : ((⌊q⌋ : ℤ) : ℚ) ≤ q := Int.floor_le q
  have h1 : q < ((⌊q⌋ : ℤ) : ℚ) + 1 := Int.lt_floor_add_one q
  rw [abs_le]
  unfold pyRound
  split
  · next h => constructor <;> push_cast <;> linarith
  · next h =>
    split
    · next h2 => constructor <;> push_cast <;> linarith
    · next h2 =>
      split
      · constructor <;> push_cast <;> linarith
      · constructor <;> push_cast <;> linarith

/-- The distance from a rational to its two-decimal Python rounding is at
most 1/200. -/
theorem abs_pyRound2_sub_le (q : ℚ) : |pyRound2 q - q| ≤ 1 / 200 := by
  have h := abs_pyRound_sub_le (q * 100)
  unfold pyRound2
  have h2 : ((pyRound (q * 100) : ℤ) : ℚ) / 100 - q =
      (((pyRound (q * 100) : ℤ) : ℚ) - q * 100) / 100 := by ring
  rw [h2, abs_div]
  rw [show |(100 : ℚ)| = 100 by norm_num]
  linarith

/-- C1: for every date of birth strictly before today,
`calculate_age` returns the floor of the day-count difference divided
by 365, and the result is non-negative. -/
theorem calculate_age_floor_nonneg (today : Int) (p : FitnessProfile)
    (h : p.date_of_birth < today) :
    p.calculate_age today = ⌊((today - p.date_of_birth : ℤ) : ℚ) / 365⌋ ∧
    0 ≤ p.calculate_age today := by
  constructor
  · rw [FitnessProfile.calculate_age,
      Int.fdiv_eq_ediv _ (by norm_num : (0 : ℤ) ≤ 365)]
    rw [show ((365 : ℚ)) = ((365 : ℕ) : ℚ) by norm_num]
    rw [Rat.floor_intCast_div_natCast]
    norm_num
  · exact Int.fdiv_nonneg (by omega) (by norm_num)

/-- C1 witness: with date of birth 2000-01-01 and today 2024-01-01 the
age is 24 = 8766 // 365, and it matches the floor formula. -/
theorem calculate_age_floor_nonneg_witness :
    sampleProfile.date_of_birth < toOrdinal 2024 1 1 ∧
    (sampleProfile.calculate_age (toOrdinal 2024 1 1) =
        ⌊((toOrdinal 2024 1 1 - sampleProfile.date_of_birth : ℤ) : ℚ) / 365⌋ ∧
      0 ≤ sampleProfile.calculate_age (toOrdinal 2024 1 1)) ∧
    toOrdinal 2024 1 1 - sampleProfile.date_of_birth = 8766 ∧
    sampleProfile.calculate_age (toOrdinal 2024 1 1) = 24 :=
  ⟨by decide, calculate_age_floor_nonneg (toOrdinal 2024 1 1) sampleProfile
      (by decide), by decide, by decide⟩

/-- C2: for positive height and weight, `calculate_bmi` returns
weight / (height / 100) ^ 2 rounded to two decimal places, and the
rounded value is within 1/200 of the exact quotient. -/
theorem calculate_bmi_spec (p : FitnessProfile)
    (hh : 0 < p.height) (hw : 0 < p.weight) :
    p.calculate_bmi =
      pyRound2 ((p.weight : ℚ) / ((p.height : ℚ) / 100) ^ 2) ∧
    |p.calculate_bmi - (p.weight : ℚ) / ((p.height : ℚ) / 100) ^ 2| ≤
      1 / 200 :=
  ⟨rfl, abs_pyRound2_sub_le _⟩

/-- C2 witness: height 180 and weight 75 give bmi 23.15 = 463/20. -/
theorem calculate_bmi_spec_witness :
    0 < sampleProfile.height ∧ 0 < sampleProfile.weight ∧
    (sampleProfile.calculate_bmi =
        pyRound2 ((sampleProfile.weight : ℚ) /
          ((sampleProfile.height : ℚ) / 100) ^ 2) ∧
      |sampleProfile.calculate_bmi - (sampleProfile.weight : ℚ) /
          ((sampleProfile.height : ℚ) / 100) ^ 2| ≤ 1 / 200) ∧
    sampleProfile.calculate_bmi = 463 / 20 :=
  ⟨by decide, by decide,
    calculate_bmi_spec sampleProfile (by decide) (by decide),
    by norm_num [sampleProfile, FitnessProfile.calculate_bmi, pyRound2,
      pyRound]⟩

/-- C3: `save` discards any externally supplied `age` and `bmi` and
always persists the values derived from date of birth, height and
weight. -/
theorem save_overwrites_derived (today : Int) (p : FitnessProfile)
    (a : Option Int) (b : Option ℚ) :
    ({ p with age := a, bmi := b } : FitnessProfile).save today =
      p.save today ∧
    (p.save today).age = some (p.calculate_age today) ∧
    (p.save today).bmi = some p.calculate_bmi := by
  refine ⟨?_, rfl, rfl⟩
  simp [FitnessProfile.save, FitnessProfile.calculate_age,
    FitnessProfile.calculate_bmi]

/-- C8: saving an already saved profile again, with unchanged inputs and
unchanged current date, produces the same record, hence the same age and
bmi. -/
theorem save_idempotent (today : Int) (p : FitnessProfile) :
    (p.save today).save today = p.save today := by
  simp [FitnessProfile.save, FitnessProfile.calculate_age,
    FitnessProfile.calculate_bmi]

/-- C9: `save` writes only `age` and `bmi`; every other field of the
profile is unchanged. -/
theorem save_frame (today : Int) (p : FitnessProfile) :
    (p.save today).user = p.user ∧
    (p.save today).gender = p.gender ∧
    (p.save today).date_of_birth = p.date_of_birth ∧
    (p.save today).contact_number = p.contact_number ∧
    (p.save today).height = p.height ∧
    (p.save today).weight = p.weight ∧
    (p.save today).joining_date = p.joining_date ∧
    (p.save today).goal = p.goal :=
  ⟨rfl, rfl, rfl, rfl, rfl, rfl, rfl, rfl⟩

/-- C6: the date-of-birth validator succeeds exactly on strictly past
dates, and on today or any future date it raises the error keyed to
`date_of_birth` with message `Date of birth must be in the past.`. -/
theorem validate_date_of_birth_spec (today value : Int) :
    (validate_date_of_birth today value = .ok () ↔ value < today) ∧
    (today ≤ value →
      validate_date_of_birth today value =
        .error ("date_of_birth", "Date of birth must be in the past.")) := by
  unfold validate_date_of_birth
  constructor
  · split
    · next h => simp only [reduceCtorEq, false_iff]; omega
    · next h => simp only [true_iff]; omega
  · intro h
    simp [h]

/-- C6 witness: 2024-01-01 as date of birth on 2024-01-01 is rejected
with the keyed error, and 2000-01-01 is accepted. -/
theorem validate_date_of_birth_spec_witness :
    ((validate_date_of_birth (toOrdinal 2024 1 1) (toOrdinal 2024 1 1) =
        .ok () ↔ toOrdinal 2024 1 1 < toOrdinal 2024 1 1) ∧
      (toOrdinal 2024 1 1 ≤ toOrdinal 2024 1 1 →
        validate_date_of_birth (toOrdinal 2024 1 1) (toOrdinal 2024 1 1) =
          .error ("date_of_birth", "Date of birth must be in the past."))) ∧
    validate_date_of_birth (toOrdinal 2024 1 1) (toOrdinal 2024 1 1) =
      .error ("date_of_birth", "Date of birth must be in the past.") ∧
    validate_date_of_birth (toOrdinal 2024 1 1) (toOrdinal 2000 1 1) =
      .ok () :=
  ⟨validate_date_of_birth_spec (toOrdinal 2024 1 1) (toOrdinal 2024 1 1),
    rfl, rfl⟩

/-- Matching a replicated character class is exactly a length check plus
a per-character class check. -/
theorem matchClassList_replicate (p : Char → Bool) :
    ∀ (n : Nat) (cs : List Char),
      matchClassList (List.replicate n p) cs = true ↔
        cs.length = n ∧ ∀ c ∈ cs, p c = true
  | 0, [] => by simp [matchClassList]
  | 0, c :: cs => by simp [List.replicate, matchClassList]
  | n + 1, [] => by simp [List.replicate, matchClassList]
  | n + 1, c :: cs => by
    simp only [List.replicate, matchClassList, Bool.and_eq_true,
      matchClassList_replicate p n cs, List.length_cons, List.mem_cons]
    constructor
    · rintro ⟨hc, hlen, hall⟩
      refine ⟨by omega, ?_⟩
      intro x hx
      cases hx with
      | inl hxc => subst hxc; exact hc
      | inr hxc => exact hall x hxc
    · rintro ⟨hlen, hall⟩
      refine ⟨hall c (Or.inl rfl), by omega, ?_⟩
      intro x hx
      exact hall x (Or.inr hx)

/-- C7: the mobile-number validator accepts a string exactly when it is
ten decimal digits, and otherwise raises the invalid-format error. -/
theorem mobile_number_validator_spec (s : String) :
    (mobile_number_validator s = .ok () ↔
      s.length = 10 ∧ ∀ c ∈ s.data, c.isDigit = true) ∧
    (¬ (s.length = 10 ∧ ∀ c ∈ s.data, c.isDigit = true) →
      mobile_number_validator s =
        .error "Enter a valid 10-digit mobile number.") := by
  have hchar : matchClassList mobileNumberPattern s.data = true ↔
      s.length = 10 ∧ ∀ c ∈ s.data, c.isDigit = true := by
    rw [mobileNumberPattern, matchClassList_replicate]
    rw [String.length]
  unfold mobile_number_validator
  constructor
  · split
    · next h => simp only [true_iff]; exact hchar.mp h
    · next h =>
      simp only [reduceCtorEq, false_iff]
      intro hc
      exact h (hchar.mpr hc)
  · intro hc
    split
    · next h => exact absurd (hchar.mp h) hc
    · rfl

/-- C7 witness: 9876543210 is accepted; 12345, 12345678901 and
12345abcde are rejected with the invalid-format error. -/
theorem mobile_number_validator_spec_witness :
    ((mobile_number_validator "9876543210" = .ok () ↔
        ("9876543210" : String).length = 10 ∧
          ∀ c ∈ ("9876543210" : String).data, c.isDigit = true) ∧
      (¬ (("9876543210" : String).length = 10 ∧
          ∀ c ∈ ("9876543210" : String).data, c.isDigit = true) →
        mobile_number_validator "9876543210" =
          .error "Enter a valid 10-digit mobile number.")) ∧
    mobile_number_validator "9876543210" = .ok () ∧
    mobile_number_validator "12345" =
      .error "Enter a valid 10-digit mobile number." ∧
    mobile_number_validator "12345678901" =
      .error "Enter a valid 10-digit mobile number." ∧
    mobile_number_validator "12345abcde" =
      .error "Enter a valid 10-digit mobile number." :=
  ⟨mobile_number_validator_spec "9876543210", rfl, rfl, rfl, rfl⟩

/-- C10: `save` never consults the date-of-birth validator: with a date
of birth strictly after today, on which the validator raises, `save`
still succeeds and stores a strictly negative age. -/
theorem save_skips_validation (today : Int) (p : FitnessProfile)
    (h : today < p.date_of_birth) :
    validate_date_of_birth today p.date_of_birth =
      .error ("date_of_birth", "Date of birth must be in the past.") ∧
    (p.save today).age = some (p.calculate_age today) ∧
    p.calculate_age today < 0 := by
  refine ⟨?_, rfl, ?_⟩
  · exact (validate_date_of_birth_spec today p.date_of_birth).2 (le_of_lt h)
  · rw [FitnessProfile.calculate_age,
      Int.fdiv_eq_ediv _ (by norm_num : (0 : ℤ) ≤ 365)]
    exact Int.ediv_neg' (by omega) (by norm_num)

/-- C10 witness: with today 1999-01-01 and date of birth 2000-01-01 the
validator rejects, yet save stores age -365 // 365 = -1. -/
theorem save_skips_validation_witness :
    toOrdinal 1999 1 1 < sampleProfile.date_of_birth ∧
    (validate_date_of_birth (toOrdinal 1999 1 1)
        sampleProfile.date_of_birth =
      .error ("date_of_birth", "Date of birth must be in the past.") ∧
      (sampleProfile.save (toOrdinal 1999 1 1)).age =
        some (sampleProfile.calculate_age (toOrdinal 1999 1 1)) ∧
      sampleProfile.calculate_age (toOrdinal 1999 1 1) < 0) ∧
    sampleProfile.calculate_age (toOrdinal 1999 1 1) = -1 :=
  ⟨by decide,
    save_skips_validation (toOrdinal 1999 1 1) sampleProfile (by decide),
    by decide⟩

/-- C4: account creation validates the nested profile payload first; on
any violation it aborts with the per-field error map and the state is
unchanged (no identity record, no profile record); on success it creates
the identity record with the generated handle and then the profile
record linked to it. -/
theorem create_validation_atomic (today : Int) (draw : Nat → String)
    (name : String) (fp : ProfilePayload) (db : DB)
    (h : ∃ n, usernameExists db.users (draw n) = false) :
    (validateProfile today fp ≠ [] →
      create today draw name fp db h =
        (db, .error (validateProfile today fp))) ∧
    (validateProfile today fp = [] →
      create today draw name fp db h =
        ({ users := db.users ++
              [{ username := generate_random_username db.users draw h,
                 name := name }],
           profiles := db.profiles ++
              [(mkProfile (generate_random_username db.users draw h)
                  fp).save today] },
          .ok { username := generate_random_username db.users draw h,
                name := name })) := by
  constructor
  · intro hne
    simp [create, hne]
  · intro he
    simp [create, he]

/-- C4 witness: on the empty state, the valid payload creates the
identity record and its linked profile record, while the invalid payload
leaves the state unchanged and surfaces the error map. -/
theorem create_validation_atomic_witness :
    validateProfile (toOrdinal 2024 1 1) samplePayload = [] ∧
    create (toOrdinal 2024 1 1) constDraw "alice" samplePayload emptyDB
        constDraw_fresh_emptyDB =
      ({ users := emptyDB.users ++
            [{ username := generate_random_username emptyDB.users constDraw
                  constDraw_fresh_emptyDB,
               name := "alice" }],
         profiles := emptyDB.profiles ++
            [(mkProfile (generate_random_username emptyDB.users constDraw
                  constDraw_fresh_emptyDB) samplePayload).save
                (toOrdinal 2024 1 1)] },
        .ok { username := generate_random_username emptyDB.users constDraw
                  constDraw_fresh_emptyDB,
              name := "alice" }) ∧
    validateProfile (toOrdinal 2024 1 1) badPayload ≠ [] ∧
    create (toOrdinal 2024 1 1) constDraw "mallory" badPayload emptyDB
        constDraw_fresh_emptyDB =
      (emptyDB, .error (validateProfile (toOrdinal 2024 1 1) badPayload)) :=
  ⟨by decide,
    (create_validation_atomic (toOrdinal 2024 1 1) constDraw "alice"
        samplePayload emptyDB constDraw_fresh_emptyDB).2 (by decide),
    by decide,
    (create_validation_atomic (toOrdinal 2024 1 1) constDraw "mallory"
        badPayload emptyDB constDraw_fresh_emptyDB).1 (by decide)⟩

/-- C5: the generated handle is 16 characters, alphanumeric (given that
every draw is), and does not exist among the identity records checked,
so no existing record shares it; a second generation run against the
state extended with the first record returns a different handle, whatever
profile data the two creations supplied. -/
theorem generate_random_username_spec (users : List UserRec)
    (draw : Nat → String)
    (h : ∃ n, usernameExists users (draw n) = false)
    (hlen : ∀ n, (draw n).length = 16)
    (halnum : ∀ n, ∀ c ∈ (draw n).data, c.isAlphanum = true)
    (name2 : String) (draw2 : Nat → String)
    (h2 : ∃ n, usernameExists
        (users ++ [{ username := generate_random_username users draw h,
                     name := name2 }]) (draw2 n) = false) :
    (generate_random_username users draw h).length = 16 ∧
    (∀ c ∈ (generate_random_username users draw h).data,
      c.isAlphanum = true) ∧
    usernameExists users (generate_random_username users draw h) = false ∧
    (∀ r ∈ users, r.username ≠ generate_random_username users draw h) ∧
    generate_random_username
        (users ++ [{ username := generate_random_username users draw h,
                     name := name2 }]) draw2 h2 ≠
      generate_random_username users draw h := by
  have hfresh : usernameExists users
      (generate_random_username users draw h) = false :=
    Nat.find_spec h
  refine ⟨hlen _, halnum _, hfresh, ?_, ?_⟩
  · intro r hr heq
    have htrue : usernameExists users
        (generate_random_username users draw h) = true := by
      simp only [usernameExists, List.any_eq_true]
      exact ⟨r, hr, by simp [heq]⟩
    rw [hfresh] at htrue
    exact Bool.false_ne_true htrue
  · intro heq
    have hfresh2 : usernameExists
        (users ++ [{ username := generate_random_username users draw h,
                     name := name2 }])
        (generate_random_username
          (users ++ [{ username := generate_random_username users draw h,
                       name := name2 }]) draw2 h2) = false :=
      Nat.find_spec h2
    rw [heq] at hfresh2
    have htrue : usernameExists
        (users ++ [{ username := generate_random_username users draw h,
                     name := name2 }])
        (generate_random_username users draw h) = true := by
      simp [usernameExists]
    rw [htrue] at hfresh2
    simp at hfresh2

/-- The one-record state used by the C5 witness. -/
def users0 : List UserRec :=
  [{ username := "zzzzzzzzzzzzzzzz", name := "bob" }]

/-- A second deterministic stand-in for the random draw. -/
def constDraw2 : Nat → String := fun _ => "p9o8i7u6y5t4r3e2"

/-- Every character of the first stand-in draw is alphanumeric. -/
theorem constDraw_alnum (n : Nat) :
    ∀ c ∈ (constDraw n).data, c.isAlphanum = true :=
  show ∀ c ∈ ("a0b1c2d3e4f5g6h7" : String).data, c.isAlphanum = true from
    by decide

/-- On the one-record state the first draw is already fresh. -/
theorem constDraw_fresh_users0 :
    ∃ n, usernameExists users0 (constDraw n) = false :=
  ⟨0, rfl⟩

/-- The second draw is fresh even after the first generated handle is
inserted. -/
theorem constDraw2_fresh_users0 :
    ∃ n, usernameExists
      (users0 ++ [{ username := generate_random_username users0 constDraw
                      constDraw_fresh_users0,
                    name := "carol" }]) (constDraw2 n) = false :=
  ⟨0, by decide⟩

/-- C5 witness: on the one-record state the generated handle is the
16-character alphanumeric draw, absent from the records, and a second
generation against the extended state yields a different handle. -/
theorem generate_random_username_spec_witness :
    (generate_random_username users0 constDraw
        constDraw_fresh_users0).length = 16 ∧
    (∀ c ∈ (generate_random_username users0 constDraw
        constDraw_fresh_users0).data, c.isAlphanum = true) ∧
    usernameExists users0
      (generate_random_username users0 constDraw constDraw_fresh_users0) =
      false ∧
    (∀ r ∈ users0, r.username ≠
      generate_random_username users0 constDraw constDraw_fresh_users0) ∧
    generate_random_username
        (users0 ++ [{ username := generate_random_username users0 constDraw
                        constDraw_fresh_users0,
                      name := "carol" }]) constDraw2
        constDraw2_fresh_users0 ≠
      generate_random_username users0 constDraw constDraw_fresh_users0 :=
  generate_random_username_spec users0 constDraw constDraw_fresh_users0
    (fun _ => rfl) constDraw_alnum "carol" constDraw2
    constDraw2_fresh_users0
